import Mathlib

/-!
Verification of the portfolio-robot pipeline (src/main.py) against its
natural-language specification.

The embedding is shallow: Python dictionaries of dynamic values become
association lists of `PyVal`, the retry loop of `fetch_stock` becomes a
fuel-indexed recursion that also records its observable side effects
(sleeps and upstream calls) as an `Event` trace, fallible Python code
(code that can raise) becomes `Except String`, and Python numbers are
modelled as rationals.

A central fact about the source file: `main.py` never imports the
`random` module, yet line 61 evaluates `random.uniform(3, 7)` inside the
`try` block of `fetch_stock`.  At run time this raises a `NameError`
before the upstream client is ever contacted; the generic
`except Exception` branch catches it.  The embedding therefore keeps the
pacing step abstract (`PacingResult`): the shipped program corresponds to
the pacing step always raising (`fetch_stock` below), while the retry and
backoff logic that the spec describes is analysed on the same loop with a
successfully drawn pacing delay (`fetch_stock_paced`).
-/

namespace PortfolioRobot

/-- A dynamic Python value as it occurs in a Yahoo info payload:
a number (int or float, modelled as a rational), a string, or `None`
(which is also what `dict.get` yields for a missing key). -/
inductive PyVal where
  | none : PyVal
  | num : ℚ → PyVal
  | str : String → PyVal
deriving DecidableEq, Repr

/-- The payload dictionary returned by `stock.info`, as an association list. -/
abbrev Payload := List (String × PyVal)

/-- Python `info.get(key, None)`: the stored value, or `None` when absent. -/
def payloadGet (p : Payload) (k : String) : PyVal :=
  match p.lookup k with
  | Option.some v => v
  | Option.none => PyVal.none

/-- Python `needle in hay` on strings: contiguous substring test. -/
def pyContains (hay needle : String) : Bool :=
  decide (needle.data <:+: hay.data)

/-- Python `s.strip()`: leading and trailing whitespace removed
(structurally, over the character list, so that it computes by
reduction). -/
def pyStrip (s : String) : String :=
  String.mk (((s.data.dropWhile Char.isWhitespace).reverse.dropWhile Char.isWhitespace).reverse)

/-- Python `s[:n]`, counting code points. -/
def pyTake (s : String) (n : Nat) : String := String.mk (s.data.take n)

/-- Python `len(s)`, counting code points. -/
def pyLen (s : String) : Nat := s.data.length

/-- Outcome of evaluating the pacing expression `random.uniform(3, 7)` on
line 61: either a drawn delay, or an exception (in the shipped file the
`random` module is not imported, so the evaluation always raises a
`NameError`). -/
inductive PacingResult where
  | draw : ℚ → PacingResult
  | nameError : String → PacingResult

/-- Outcome of one upstream call (`stock.info` on line 70): either a
payload dictionary or a raised exception whose `str(e)` is the given
message. -/
inductive UpstreamResult where
  | info : Payload → UpstreamResult
  | raises : String → UpstreamResult

/-- Observable side effects of `fetch_stock`, in program order:
the pacing sleep (line 63), the upstream call (lines 66-70), the
empty-payload retry sleep `time.sleep(10)` (line 77), the rate-limit
backoff `time.sleep(15 * (attempt + 1))` (line 92, tagged with the
0-based attempt index), and the generic retry sleep `time.sleep(5)`
(line 96). -/
inductive Event where
  | pacing : ℚ → Event
  | callUpstream : Nat → Event
  | emptyRetrySleep : Nat → Event
  | rateLimitSleep : Nat → Nat → Event
  | otherRetrySleep : Nat → Event
deriving DecidableEq, Repr

/-- Line 73: `if not info or info.get('symbol') is None` — the payload is
unusable when the dict is empty or carries no symbol. -/
def payloadEmptyOrNoSymbol (p : Payload) : Bool :=
  p.isEmpty || decide (payloadGet p "symbol" = PyVal.none)

/-- The `except Exception` branch of `fetch_stock` (lines 84-99): a
message containing `"429"` triggers the escalating rate-limit backoff and
the loop goes on; any other message sleeps 5 units and retries when
attempts remain, and returns `None` on the final attempt.  `next` is the
continuation of the loop with the next attempt. -/
def exnStep (maxRetries : Nat) (msg : String) (attempt : Nat)
    (next : List Event × Option Payload) : List Event × Option Payload :=
  if pyContains msg "429" then
    (Event.rateLimitSleep attempt (15 * (attempt + 1)) :: next.1, next.2)
  else if attempt < maxRetries - 1 then
    (Event.otherRetrySleep 5 :: next.1, next.2)
  else
    ([], Option.none)

/-- The `for attempt in range(max_retries)` loop of `fetch_stock`
(lines 55-99), with `fuel` counting the remaining iterations.  Each
iteration evaluates the pacing expression, then (if that does not raise)
sleeps and calls upstream, then either returns the payload, handles an
empty payload (retry after 10 units, or `None` on the last attempt), or
runs the exception branch.  The result pairs the event trace with the
returned value (`none` models Python returning `None`, including falling
off the loop). -/
def fetchGo (pace : Nat → PacingResult) (upstream : Nat → UpstreamResult)
    (maxRetries : Nat) : Nat → Nat → List Event × Option Payload
  | _, 0 => ([], Option.none)
  | attempt, fuel + 1 =>
    match pace attempt with
    | PacingResult.nameError msg =>
      exnStep maxRetries msg attempt (fetchGo pace upstream maxRetries (attempt + 1) fuel)
    | PacingResult.draw t =>
      match upstream attempt with
      | UpstreamResult.info p =>
        if payloadEmptyOrNoSymbol p then
          if attempt < maxRetries - 1 then
            let next := fetchGo pace upstream maxRetries (attempt + 1) fuel
            (Event.pacing t :: Event.callUpstream attempt :: Event.emptyRetrySleep 10 :: next.1,
              next.2)
          else
            ([Event.pacing t, Event.callUpstream attempt], Option.none)
        else
          ([Event.pacing t, Event.callUpstream attempt], Option.some p)
      | UpstreamResult.raises msg =>
        let next := exnStep maxRetries msg attempt
          (fetchGo pace upstream maxRetries (attempt + 1) fuel)
        (Event.pacing t :: Event.callUpstream attempt :: next.1, next.2)

/-- The pacing expression of the shipped file: `random.uniform(3, 7)` with
`random` unimported raises a `NameError` on every attempt. -/
def pacingNameError : Nat → PacingResult :=
  fun _ => PacingResult.nameError "NameError: name random is not defined"

/-- `fetch_stock(ticker, max_retries=3)` as shipped (the ticker only feeds
log output, so it is not a parameter of the model): the loop with the
always-raising pacing step, three attempts. -/
def fetch_stock (upstream : Nat → UpstreamResult) : List Event × Option Payload :=
  fetchGo pacingNameError upstream 3 0 3

/-- The same loop with a pacing step that draws its delay, i.e. the
retry/backoff logic of lines 55-99 as it behaves once the pacing
expression evaluates (the logic the spec describes). -/
def fetch_stock_paced (pace : Nat → PacingResult) (upstream : Nat → UpstreamResult) :
    List Event × Option Payload :=
  fetchGo pace upstream 3 0 3

/-- A pacing policy that always draws 5 units (inside the 3-7 range). -/
def pace5 : Nat → PacingResult := fun _ => PacingResult.draw 5

/-- An upstream that is rate limited on every attempt. -/
def all429 : Nat → UpstreamResult :=
  fun _ => UpstreamResult.raises "HTTPError: 429 Too Many Requests"

/-- An upstream whose first attempt raises a generic (non-429) error and
whose later attempts return a usable payload. -/
def otherThenGood : Nat → UpstreamResult :=
  fun n =>
    if n = 0 then UpstreamResult.raises "ConnectionError: connection reset by peer"
    else UpstreamResult.info [("symbol", PyVal.str "AAA")]

/-! ## Scoring (lines 116-144)

The three rule conditions on lines 123, 125 and 127 are Python boolean
expressions with short-circuit evaluation.  Python comparison between a
string and a number raises a `TypeError`, so each condition is fallible
(`Except String Bool`); `x is not None` guards only `None`, not strings. -/

/-- Python `v != 0`: a number differs from zero numerically; values of a
different type (strings) are simply unequal to `0`. -/
def pyNeZero (v : PyVal) : Bool :=
  match v with
  | PyVal.num q => decide (q ≠ 0)
  | PyVal.str _ => true
  | PyVal.none => true

/-- Python `v < bound` for a numeric bound: numeric comparison on numbers,
`TypeError` on a string or `None` operand. -/
def pyLtNum (v : PyVal) (bound : ℚ) : Except String Bool :=
  match v with
  | PyVal.num q => Except.ok (decide (q < bound))
  | PyVal.str _ => Except.error "TypeError: comparison between str and float is not supported"
  | PyVal.none => Except.error "TypeError: comparison between NoneType and float is not supported"

/-- Python `v > bound` for a numeric bound, same typing rules. -/
def pyGtNum (v : PyVal) (bound : ℚ) : Except String Bool :=
  match v with
  | PyVal.num q => Except.ok (decide (bound < q))
  | PyVal.str _ => Except.error "TypeError: comparison between str and float is not supported"
  | PyVal.none => Except.error "TypeError: comparison between NoneType and float is not supported"

/-- Line 123: `peg is not None and peg != 0 and peg < 1.5`. -/
def pegCond (peg : PyVal) : Except String Bool :=
  match peg with
  | PyVal.none => Except.ok false
  | v => if pyNeZero v then pyLtNum v 1.5 else Except.ok false

/-- Line 125: `roe is not None and roe > 0.15`. -/
def roeCond (roe : PyVal) : Except String Bool :=
  match roe with
  | PyVal.none => Except.ok false
  | v => pyGtNum v 0.15

/-- Line 127: `de_ratio is not None and de_ratio < 100`. -/
def deCond (de : PyVal) : Except String Bool :=
  match de with
  | PyVal.none => Except.ok false
  | v => pyLtNum v 100

/-- Lines 122-128: `score = 0` then three sequential `if cond: score += 1`
statements; the first condition that raises aborts the block. -/
def score3 (peg roe de : PyVal) : Except String Nat := do
  let b1 ← pegCond peg
  let b2 ← roeCond roe
  let b3 ← deCond de
  Except.ok ((if b1 then 1 else 0) + (if b2 then 1 else 0) + (if b3 then 1 else 0))

/-- Line 131: `status_list = ["🔴 SELL", "🟡 HOLD", "🟢 BUY", "⭐ STRONG BUY"]`. -/
def status_list : List String := ["🔴 SELL", "🟡 HOLD", "🟢 BUY", "⭐ STRONG BUY"]

/-- Line 132: `status = status_list[min(score, 3)]` (the index is always in
range, so the fallback default is unreachable). -/
def statusOf (score : Nat) : String := status_list.getD (min score 3) ""

/-! ## Fixed-precision rendering (lines 134-140)

`f"{x:.2f}"` on a rational model of the number: round half to even at the
requested number of decimals, then print with a zero-padded fraction. -/

/-- Round half to even to the nearest integer. -/
def roundHalfEven (x : ℚ) : ℤ :=
  let f : ℤ := ⌊x⌋
  let r : ℚ := x - f
  if r < 1 / 2 then f
  else if 1 / 2 < r then f + 1
  else if f % 2 = 0 then f else f + 1

/-- Zero-pad a natural number to the given width. -/
def padZeros (width : Nat) (n : Nat) : String :=
  let s := toString n
  String.mk (List.replicate (width - s.length) '0') ++ s

/-- Python `f"{q:.precf}"` on the rational model of the number. -/
def pyFormatFixed (prec : Nat) (q : ℚ) : String :=
  let sign := if q < 0 then "-" else ""
  let scaled : ℤ := roundHalfEven (|q| * (10 : ℚ) ^ prec)
  let n : Nat := scaled.toNat
  let base : Nat := 10 ^ prec
  if prec = 0 then sign ++ toString n
  else sign ++ toString (n / base) ++ "." ++ padZeros prec (n % base)

/-- Line 135: `f"{peg:.2f}" if isinstance(peg, (int, float)) else "N/A"`. -/
def peg_str (v : PyVal) : String :=
  match v with
  | PyVal.num q => pyFormatFixed 2 q
  | _ => "N/A"

/-- Lines 136-139: `f"{roe * 100:.1f}%"` when numeric, else `"N/A"`. -/
def roe_pct_str (v : PyVal) : String :=
  match v with
  | PyVal.num q => pyFormatFixed 1 (q * 100) ++ "%"
  | _ => "N/A"

/-- Line 140: `f"{de_ratio:.1f}"` when numeric, else `"N/A"`. -/
def de_str (v : PyVal) : String :=
  match v with
  | PyVal.num q => pyFormatFixed 1 q
  | _ => "N/A"

/-- Lines 142-144: the scored entry appended to `analysis_results`. -/
def resultLine (ticker status ps rs ds : String) : String :=
  "**" ++ ticker ++ "**: " ++ status ++ " | PEG: " ++ ps ++ " | ROE: " ++ rs ++ " | D/E: " ++ ds

/-- Line 113: the entry appended when `fetch_stock` returned `None`. -/
def errorLine (ticker : String) : String :=
  ticker ++ ": ❌ ERROR - Could not get data"

/-- Lines 116-144 for one fetched payload: extract the three indicator
fields with `info.get(..., None)`, run the scoring block (which can raise
a `TypeError` on a non-numeric field), and format the entry. -/
def scoreEntry (ticker : String) (info : Payload) : Except String String := do
  let peg := payloadGet info "pegRatio"
  let roe := payloadGet info "returnOnEquity"
  let de := payloadGet info "debtToEquity"
  let s ← score3 peg roe de
  Except.ok (resultLine ticker (statusOf s) (peg_str peg) (roe_pct_str roe) (de_str de))

/-- Lines 105-145: the per-row loop over the portfolio.  `rows` is the
sheet's `Ticker` column, `fetchR` the value `fetch_stock` returned for a
ticker.  A row whose stripped ticker is empty is skipped (`continue` on
line 108); a failed fetch appends the error entry; a successful fetch
appends the scored entry and bumps `successful_fetches`.  An uncaught
`TypeError` inside the scoring block aborts the whole loop, which the
`Except` propagates. -/
def analysisLoop (rows : List String) (fetchR : String → Option Payload) :
    Except String (List String × Nat) :=
  match rows with
  | [] => Except.ok ([], 0)
  | r :: rs =>
    let t := pyStrip r
    if t = "" then analysisLoop rs fetchR
    else
      match fetchR t with
      | Option.none => do
        let (res, sf) ← analysisLoop rs fetchR
        Except.ok (errorLine t :: res, sf)
      | Option.some info => do
        let line ← scoreEntry t info
        let (res, sf) ← analysisLoop rs fetchR
        Except.ok (line :: res, sf + 1)

/-! ## Report synthesis (lines 147-208) -/

/-- Lines 158-174: the hand-written report used when every fetch failed
(`successful_fetches == 0`), transcribed from the triple-quoted literal. -/
def noDataSummary : String :=
  "\n    <h2>🚨 Portfolio Robot Report</h2>\n    <p><strong>All stock data fetches failed.</strong></p>\n    <p>Yahoo Finance blocked every request due to rate limiting. This happens when:</p>\n    <ul>\n        <li>You have too many stocks (>5 is risky)</li>\n        <li>Yahoo is having a bad day (rare)</li>\n        <li>Your IP range is flagged (GitHub\x27s IPs sometimes are)</li>\n    </ul>\n    <p><strong>What to do:</strong></p>\n    <ul>\n        <li>Wait 1 hour and try again</li>\n        <li>Temporarily reduce to 3-5 stocks in your sheet</li>\n        <li>The robot is already configured with maximum politeness</li>\n    </ul>\n    <p><em>Raw errors:</em> All tickers returned 429 Too Many Requests</p>\n    "

/-- Lines 198-208: the deterministic fallback report built when the text
generation call raised — a templated header, the first 8 result lines as
list items, and a fixed footer. -/
def fallbackSummary (sf plen : Nat) (results : List String) : String :=
  "\n        <h2>Daily GARP Analysis</h2>\n        <p><strong>Successfully analyzed: "
    ++ toString sf ++ "/" ++ toString plen
    ++ " stocks</strong></p>\n        <ul>\n        "
    ++ String.join ((results.take 8).map (fun l => "<li>" ++ l ++ "</li>"))
    ++ "\n        </ul>\n        <p><em>AI summary unavailable. Using raw scores above.</em></p>\n        "

/-- Lines 156-208: the report body.  With zero successful fetches the
fixed no-data report is used and the generation service is not invoked;
otherwise the service's output is taken verbatim when it returns, and any
exception from the `try` block degrades to the deterministic fallback.
`gen` is the outcome of the text-generation call (`Except.error` models a
raised exception, including a missing API key). -/
def aiSummary (sf plen : Nat) (results : List String) (gen : Except String String) : String :=
  if sf = 0 then noDataSummary
  else
    match gen with
    | Except.ok t => t
    | Except.error _ => fallbackSummary sf plen results

/-! ## Telegram delivery (lines 234-264) -/

/-- Lines 241-243: the per-run summary line. -/
def summaryLine (sf plen : Nat) : String :=
  "Analyzed " ++ toString sf ++ "/" ++ toString plen ++ " stocks ✅"
    ++ (if sf < plen then " | " ++ toString (plen - sf) ++ " failed ❌" else "")

/-- Line 248: the marker appended when the message is truncated. -/
def truncationMarker : String := "\n\n<i>...message truncated</i>"

/-- Line 246: the assembled message before the length check — the header,
the summary line, and the first 800 code points of the report body
followed by a literal `"..."`. -/
def preMessage (ai : String) (sf plen : Nat) : String :=
  "<b>Daily Stock Report</b>\n\n" ++ summaryLine sf plen ++ "\n\n" ++ pyTake ai 800 ++ "..."

/-- Lines 246-248: the message actually sent on the Telegram channel —
the assembled message, cut at 3800 code points with the truncation marker
appended whenever it exceeds 4000. -/
def telegramMessage (ai : String) (sf plen : Nat) : String :=
  let m := preMessage ai sf plen
  if 4000 < pyLen m then pyTake m 3800 ++ truncationMarker else m

/-! ## Configuration check and run composition (lines 36-43, 147-149) -/

/-- Line 39: `required_cols = {"Ticker", "Shares", "Avg_Cost"}`. -/
def required_cols : List String := ["Ticker", "Shares", "Avg_Cost"]

/-- Lines 36-43: column names are stripped, then the required columns
must all be present; otherwise a `ValueError` aborts the run before any
fetch.  (The Python message interpolates the reprs of the missing set and
of the column list; only the raised-versus-passed outcome matters here,
so the message carries the missing names joined by commas.) -/
def checkRequiredCols (columns : List String) : Except String Unit :=
  let cols := columns.map pyStrip
  let missing := required_cols.filter (fun c => decide (c ∉ cols))
  if missing = [] then Except.ok ()
  else Except.error ("ValueError: Missing columns in sheet: " ++ String.intercalate ", " missing)

/-- The pipeline through line 149: column check, the per-row loop, then
line 148's `if not analysis_results: raise RuntimeError(...)`. -/
def runAnalysis (columns rows : List String) (fetchR : String → Option Payload) :
    Except String (List String × Nat) := do
  checkRequiredCols columns
  let (results, sf) ← analysisLoop rows fetchR
  if results = [] then
    Except.error "RuntimeError: No tickers found to analyze. Check your sheet content."
  else Except.ok (results, sf)

/-- The pipeline through the report body (line 208): any error of the
earlier stages propagates, while fetch failures (error entries) and
generation failures (fallback) are absorbed into the report. -/
def runReport (columns rows : List String) (fetchR : String → Option Payload)
    (gen : Except String String) : Except String String := do
  let (results, sf) ← runAnalysis columns rows fetchR
  Except.ok (aiSummary sf rows.length results gen)

/-! ## Specification-side vocabulary

The spec speaks about optional (missing-or-numeric) indicators and about
the score as a count of satisfied rules; these definitions state that
vocabulary so the theorems can compare it with the code. -/

/-- An optional indicator as a dynamic value: absent becomes `None`. -/
def toPyVal (o : Option ℚ) : PyVal :=
  match o with
  | Option.none => PyVal.none
  | Option.some q => PyVal.num q

/-- The PEG rule of the spec: one point for a known, non-zero PEG below 1.5. -/
def pointsPeg (o : Option ℚ) : Nat :=
  match o with
  | Option.none => 0
  | Option.some q => if q ≠ 0 ∧ q < 1.5 then 1 else 0

/-- The quality rule of the spec: one point for a known ROE above 15%. -/
def pointsRoe (o : Option ℚ) : Nat :=
  match o with
  | Option.none => 0
  | Option.some q => if 0.15 < q then 1 else 0

/-- The leverage rule of the spec: one point for a known D/E below 100. -/
def pointsDe (o : Option ℚ) : Nat :=
  match o with
  | Option.none => 0
  | Option.some q => if q < 100 then 1 else 0

/-- A value that is a number or missing — the well-typed payloads on which
the scoring block cannot raise. -/
def numOrNone (v : PyVal) : Bool :=
  match v with
  | PyVal.str _ => false
  | _ => true

/-- A payload whose three indicator fields are numbers or missing. -/
def wellTyped (p : Payload) : Prop :=
  numOrNone (payloadGet p "pegRatio") = true ∧
    numOrNone (payloadGet p "returnOnEquity") = true ∧
    numOrNone (payloadGet p "debtToEquity") = true

/-- Extract the rate-limit backoff durations from an event trace. -/
def backoffOf (e : Event) : Option Nat :=
  match e with
  | Event.rateLimitSleep _ d => Option.some d
  | _ => Option.none

/-! ## Helper lemmas -/

/-- `String.append` concatenates the underlying character lists. -/
lemma strAppend_data (a b : String) : (a ++ b).data = a.data ++ b.data := by
  cases a
  cases b
  rfl

/-- Slicing commutes with taking the character list. -/
lemma pyTake_data (s : String) (n : Nat) : (pyTake s n).data = s.data.take n := rfl

/-- A concatenation whose left part is a non-empty string is non-empty. -/
lemma strAppend_ne_empty_left (a b : String) (h : a ≠ "") : a ++ b ≠ "" := by
  intro hc
  apply h
  have hd := congrArg String.data hc
  rw [strAppend_data] at hd
  rcases List.append_eq_nil.mp hd with ⟨h1, _⟩
  cases a
  simp only [String.data] at h1
  simp [h1]

/-- The scoring block on a well-typed indicator triple is exactly the
spec's count of satisfied rules. -/
lemma score3_decomp (pegO roeO deO : Option ℚ) :
    score3 (toPyVal pegO) (toPyVal roeO) (toPyVal deO) =
      Except.ok (pointsPeg pegO + pointsRoe roeO + pointsDe deO) := by
  rcases pegO with _ | p <;> rcases roeO with _ | r <;> rcases deO with _ | d <;>
    simp only [score3, toPyVal, pegCond, roeCond, deCond, pyNeZero, pyLtNum, pyGtNum,
      pointsPeg, pointsRoe, pointsDe, bind, Except.bind] <;>
    split_ifs <;> simp_all

/-- Each spec rule contributes at most one point. -/
lemma points_le_one (pegO roeO deO : Option ℚ) :
    pointsPeg pegO ≤ 1 ∧ pointsRoe roeO ≤ 1 ∧ pointsDe deO ≤ 1 := by
  refine ⟨?_, ?_, ?_⟩ <;>
    first
    | (rcases pegO with _ | q <;> simp [pointsPeg] <;> split_ifs <;> simp)
    | (rcases roeO with _ | q <;> simp [pointsRoe] <;> split_ifs <;> simp)
    | (rcases deO with _ | q <;> simp [pointsDe] <;> split_ifs <;> simp)

/-- The fallback report starts with a fixed non-empty literal. -/
lemma fallbackSummary_ne_empty (sf plen : Nat) (results : List String) :
    fallbackSummary sf plen results ≠ "" := by
  unfold fallbackSummary
  apply strAppend_ne_empty_left
  apply strAppend_ne_empty_left
  apply strAppend_ne_empty_left
  apply strAppend_ne_empty_left
  apply strAppend_ne_empty_left
  apply strAppend_ne_empty_left
  decide

/-! ## Claims -/

/-- C1.  The claim reads: for every ticker, the fetch applies a pacing
delay before each upstream call and returns `Success(payload)` on the
first attempt with a usable payload, `Failure` only after the retry
budget.  The shipped code cannot do this: line 61 evaluates
`random.uniform(3, 7)` but `main.py` never imports `random`, so every
attempt raises a `NameError` inside the `try` block before the upstream
client is contacted.  The exception message does not contain `"429"`, so
attempts 1 and 2 retry after the generic 5-unit sleep and attempt 3
returns `None`.  This theorem evaluates the shipped fetch at an arbitrary
upstream — even one that would answer every attempt with a usable
payload: the result is always failure, the trace holds no pacing sleep
and no upstream call. -/
theorem C1_fetch_never_reaches_upstream (upstream : Nat → UpstreamResult) :
    fetch_stock upstream =
      ([Event.otherRetrySleep 5, Event.otherRetrySleep 5], Option.none) := rfl

/-- C2, counterexample.  The claim says an OTHER failure (not rate
limited, not timeout, not empty) is never retried.  With the pacing step
drawing 5 units, an upstream whose first attempt raises a generic
connection error and whose second attempt returns a usable payload makes
the loop sleep 5 units and call upstream a second time, returning that
payload — a second attempt was made, refuting the claim. -/
theorem C2_counterexample :
    fetch_stock_paced pace5 otherThenGood =
        ([Event.pacing 5, Event.callUpstream 0, Event.otherRetrySleep 5,
          Event.pacing 5, Event.callUpstream 1],
          Option.some [("symbol", PyVal.str "AAA")]) ∧
      Event.callUpstream 1 ∈ (fetch_stock_paced pace5 otherThenGood).1 :=
  ⟨rfl, by decide⟩

/-- C2, amended.  What lines 93-99 actually do with an unexpected (OTHER,
no `"429"` in the message) failure: on a non-final attempt the fetcher
sleeps a fixed 5 units and makes another attempt; only an OTHER failure
on the final attempt makes it fail immediately. -/
theorem C2_other_error_retry_policy (pc : Nat → PacingResult) (up : Nat → UpstreamResult)
    (t : ℚ) (msg : String) (attempt fuel : Nat)
    (hp : pc attempt = PacingResult.draw t) (hu : up attempt = UpstreamResult.raises msg)
    (h429 : pyContains msg "429" = false) :
    fetchGo pc up 3 attempt (fuel + 1) =
      if attempt < 2 then
        (Event.pacing t :: Event.callUpstream attempt :: Event.otherRetrySleep 5 ::
            (fetchGo pc up 3 (attempt + 1) fuel).1,
          (fetchGo pc up 3 (attempt + 1) fuel).2)
      else ([Event.pacing t, Event.callUpstream attempt], Option.none) := by
  by_cases hlt : attempt < 2 <;>
    simp [fetchGo, hp, hu, exnStep, h429, hlt]

/-- Witness for C2: the amended policy at a concrete input (first attempt
raises a generic error, pacing draws 5, attempt 0 of 3). -/
theorem C2_other_error_retry_policy_witness :
    fetchGo pace5 (fun _ => UpstreamResult.raises "ConnectionError: boom") 3 0 3 =
      (Event.pacing 5 :: Event.callUpstream 0 :: Event.otherRetrySleep 5 ::
          (fetchGo pace5 (fun _ => UpstreamResult.raises "ConnectionError: boom") 3 1 2).1,
        (fetchGo pace5 (fun _ => UpstreamResult.raises "ConnectionError: boom") 3 1 2).2) :=
  C2_other_error_retry_policy pace5 (fun _ => UpstreamResult.raises "ConnectionError: boom")
    5 "ConnectionError: boom" 0 2 rfl rfl (by decide)

/-- C3.  For every indicator triple (each one missing or a number), the
scoring block returns exactly the count of satisfied rules (known PEG
non-zero and below 1.5, known ROE above 15%, known D/E below 100), the
count is at most 3, the label is the lookup in the ordered status table
at index `min(score, 3)`, and the scenario PEG=1.2, ROE=0.20, D/E=50
scores 3 with the STRONG BUY label. -/
theorem C3_score_counts_rules (pegO roeO deO : Option ℚ) :
    score3 (toPyVal pegO) (toPyVal roeO) (toPyVal deO) =
        Except.ok (pointsPeg pegO + pointsRoe roeO + pointsDe deO) ∧
      pointsPeg pegO + pointsRoe roeO + pointsDe deO ≤ 3 ∧
      statusOf (pointsPeg pegO + pointsRoe roeO + pointsDe deO) =
        status_list.getD (min (pointsPeg pegO + pointsRoe roeO + pointsDe deO) 3) "" ∧
      score3 (PyVal.num 1.2) (PyVal.num 0.2) (PyVal.num 50) = Except.ok 3 ∧
      statusOf 3 = "⭐ STRONG BUY" := by
  obtain ⟨h1, h2, h3⟩ := points_le_one pegO roeO deO
  refine ⟨score3_decomp pegO roeO deO, by omega, rfl, ?_, rfl⟩
  have hd := score3_decomp (Option.some 1.2) (Option.some 0.2) (Option.some 50)
  norm_num [toPyVal, pointsPeg, pointsRoe, pointsDe] at hd
  have h12 : (1.2 : ℚ) = 6 / 5 := by norm_num
  have h02 : (0.2 : ℚ) = 1 / 5 := by norm_num
  rw [h12, h02]
  exact hd

/-- C4, counterexample.  The claim says a non-numeric indicator is
unknown and contributes nothing to the score.  In the code, a payload
whose `pegRatio` is the string `"Infinity"` passes the `is not None`
guard and reaches the comparison `peg < 1.5`, which raises an uncaught
`TypeError`: the ticker gets no score at all (and the exception
propagates out of the per-ticker loop), instead of scoring 2 with an
`"N/A"` rendering. -/
theorem C4_counterexample :
    score3 (PyVal.str "Infinity") (PyVal.num 0.2) (PyVal.num 50) =
      Except.error "TypeError: comparison between str and float is not supported" := rfl

/-- C4, amended.  A missing (`None`) indicator contributes nothing to the
score — never counted as passing or failing — and a payload with all
three indicators missing scores 0, gets the SELL label, and renders every
missing indicator as the literal `"N/A"`, never blank.  (A present but
non-numeric value, by contrast, raises — see the counterexample.) -/
theorem C4_missing_indicator_contributes_nothing (pegO roeO deO : Option ℚ) :
    score3 (toPyVal pegO) (toPyVal roeO) (toPyVal deO) =
        Except.ok (pointsPeg pegO + pointsRoe roeO + pointsDe deO) ∧
      pointsPeg Option.none = 0 ∧ pointsRoe Option.none = 0 ∧ pointsDe Option.none = 0 ∧
      scoreEntry "BBB" [("symbol", PyVal.str "BBB")] =
        Except.ok "**BBB**: 🔴 SELL | PEG: N/A | ROE: N/A | D/E: N/A" :=
  ⟨score3_decomp pegO roeO deO, rfl, rfl, rfl, rfl⟩

/-- C7, counterexample.  The claim says the report body is non-empty on
every run.  When at least one ticker succeeded and the text-generation
service returns normally, its output is taken verbatim (line 194), so a
service that returns the empty string makes the report body empty. -/
theorem C7_counterexample : aiSummary 1 1 ["x"] (Except.ok "") = "" := rfl

/-- C7, amended.  Whenever generation is skipped (zero successful
fetches) or the generation call raises, the report body is the
corresponding deterministic fallback and is non-empty; a generation
failure is caught and degrades to the fallback (the report function is
total), never terminating the run.  Only the verbatim output of a
successful generation call can be empty. -/
theorem C7_degraded_report_nonempty (sf plen : Nat) (results : List String)
    (gen : Except String String) (e : String)
    (h : sf = 0 ∨ (gen = Except.error e ∧ sf ≠ 0)) :
    aiSummary sf plen results gen ≠ "" ∧
      aiSummary sf plen results gen =
        (if sf = 0 then noDataSummary else fallbackSummary sf plen results) := by
  rcases h with h0 | ⟨hg, hsf⟩
  · subst h0
    refine ⟨?_, by simp [aiSummary]⟩
    show noDataSummary ≠ ""
    decide
  · subst hg
    have hred : aiSummary sf plen results (Except.error e) = fallbackSummary sf plen results := by
      simp [aiSummary, hsf]
    rw [hred]
    exact ⟨fallbackSummary_ne_empty sf plen results, by simp [hsf]⟩

/-- Witness for C7: the zero-success run with a would-be generation
output still produces the fixed non-empty no-data report. -/
theorem C7_degraded_report_nonempty_witness :
    aiSummary 0 1 [] (Except.ok "anything") ≠ "" ∧
      aiSummary 0 1 [] (Except.ok "anything") =
        (if 0 = 0 then noDataSummary else fallbackSummary 0 1 []) :=
  C7_degraded_report_nonempty 0 1 [] (Except.ok "anything") "e" (Or.inl rfl)

/-! ## The per-ticker loop -/

/-- A well-typed dynamic value is the image of an optional rational. -/
lemma exists_option_of_numOrNone (v : PyVal) (h : numOrNone v = true) :
    ∃ o : Option ℚ, v = toPyVal o := by
  cases v with
  | none => exact ⟨Option.none, rfl⟩
  | num q => exact ⟨Option.some q, rfl⟩
  | str s => simp [numOrNone] at h

/-- On a well-typed payload the scoring block cannot raise, so the scored
entry is produced. -/
lemma scoreEntry_ok_of_wellTyped (t : String) (p : Payload) (h : wellTyped p) :
    ∃ line, scoreEntry t p = Except.ok line := by
  obtain ⟨h1, h2, h3⟩ := h
  obtain ⟨o1, e1⟩ := exists_option_of_numOrNone _ h1
  obtain ⟨o2, e2⟩ := exists_option_of_numOrNone _ h2
  obtain ⟨o3, e3⟩ := exists_option_of_numOrNone _ h3
  refine ⟨resultLine t (statusOf (pointsPeg o1 + pointsRoe o2 + pointsDe o3))
    (peg_str (toPyVal o1)) (roe_pct_str (toPyVal o2)) (de_str (toPyVal o3)), ?_⟩
  simp only [scoreEntry, e1, e2, e3, score3_decomp, bind, Except.bind]

/-- The relation between a portfolio row and its entry in
`analysis_results`: a failed fetch gives the explicit error entry, a
successful fetch gives the scored entry. -/
def rowEntryRel (fetchR : String → Option Payload) (r line : String) : Prop :=
  (fetchR (pyStrip r) = Option.none → line = errorLine (pyStrip r)) ∧
    (∀ p, fetchR (pyStrip r) = Option.some p → scoreEntry (pyStrip r) p = Except.ok line)

/-- The per-ticker loop succeeds on well-typed fetch results and relates
the non-blank rows one-to-one, in order, to the result entries. -/
lemma analysisLoop_ok (rows : List String) (fetchR : String → Option Payload)
    (hwt : ∀ t p, fetchR t = Option.some p → wellTyped p) :
    ∃ res sf, analysisLoop rows fetchR = Except.ok (res, sf) ∧
      List.Forall₂ (rowEntryRel fetchR)
        (rows.filter (fun r => !(pyStrip r == ""))) res := by
  induction rows with
  | nil => exact ⟨[], 0, rfl, List.Forall₂.nil⟩
  | cons r rs ih =>
    rcases ih with ⟨res, sf, hloop, hrel⟩
    by_cases hblank : pyStrip r = ""
    · refine ⟨res, sf, ?_, ?_⟩
      · simp [analysisLoop, hblank, hloop]
      · simpa [List.filter_cons, hblank] using hrel
    · cases hf : fetchR (pyStrip r) with
      | none =>
        refine ⟨errorLine (pyStrip r) :: res, sf, ?_, ?_⟩
        · simp [analysisLoop, hblank, hf, hloop, bind, Except.bind]
        · rw [List.filter_cons_of_pos (by simpa using hblank)]
          refine List.Forall₂.cons ⟨fun _ => rfl, ?_⟩ hrel
          intro p hp
          rw [hp] at hf
          cases hf
      | some info =>
        obtain ⟨line, hline⟩ := scoreEntry_ok_of_wellTyped (pyStrip r) info (hwt _ _ hf)
        refine ⟨line :: res, sf + 1, ?_, ?_⟩
        · simp [analysisLoop, hblank, hf, hline, hloop, bind, Except.bind]
        · rw [List.filter_cons_of_pos (by simpa using hblank)]
          refine List.Forall₂.cons ⟨?_, ?_⟩ hrel
          · intro hc
            rw [hc] at hf
            cases hf
          · intro p hp
            rw [hp] at hf
            cases hf
            exact hline

/-- A concrete fetch oracle for the C5 counterexample: ticker AAA
succeeds, but its payload carries the string `"Infinity"` as `pegRatio`;
every other ticker fails. -/
def fetchBadPeg : String → Option Payload := fun t =>
  if t = "AAA" then
    Option.some [("symbol", PyVal.str "AAA"), ("pegRatio", PyVal.str "Infinity"),
      ("returnOnEquity", PyVal.num 0.2), ("debtToEquity", PyVal.num 50)]
  else Option.none

/-- C5, counterexample.  The claim says every PortfolioEntry yields
exactly one result entry — a scored line on success or the error marker
on failure — so the result count equals the ticker count.  On the
two-ticker portfolio AAA, CCC (both valid entries), where the AAA fetch
succeeds with a payload whose `pegRatio` is the string `"Infinity"`, the
scoring comparison on line 123 raises an uncaught `TypeError` that kills
the run mid-loop: no result list is produced at all — neither an entry
for AAA nor one for CCC — instead of the claimed two entries. -/
theorem C5_counterexample :
    analysisLoop ["AAA", "CCC"] fetchBadPeg =
      Except.error "TypeError: comparison between str and float is not supported" := rfl

/-- C5, amended.  Provided every fetched payload's indicator fields are
each missing or numeric (a present non-numeric value aborts the whole
loop instead — see the counterexample), a portfolio of valid entries
(non-blank tickers after stripping) yields exactly one entry per row —
the result count equals the row count — and a row whose fetch failed
gets the explicit error entry (which carries no recommendation label),
while a successful row gets its scored entry; no ticker is dropped. -/
theorem C5_one_entry_per_ticker (rows : List String) (fetchR : String → Option Payload)
    (hne : ∀ r ∈ rows, pyStrip r ≠ "")
    (hwt : ∀ t p, fetchR t = Option.some p → wellTyped p) :
    ∃ res sf, analysisLoop rows fetchR = Except.ok (res, sf) ∧
      res.length = rows.length ∧
      List.Forall₂ (rowEntryRel fetchR) rows res := by
  obtain ⟨res, sf, h1, h2⟩ := analysisLoop_ok rows fetchR hwt
  have hfil : rows.filter (fun r => !(pyStrip r == "")) = rows := by
    rw [List.filter_eq_self]
    intro a ha
    simpa using hne a ha
  rw [hfil] at h2
  exact ⟨res, sf, h1, h2.length_eq.symm, h2⟩

/-- A concrete fetch oracle: AAA succeeds with a full payload, every
other ticker fails. -/
def fetchAAA : String → Option Payload := fun t =>
  if t = "AAA" then
    Option.some [("symbol", PyVal.str "AAA"), ("pegRatio", PyVal.num 1.2),
      ("returnOnEquity", PyVal.num 0.2), ("debtToEquity", PyVal.num 50)]
  else Option.none

/-- Witness for C5 at a concrete two-ticker portfolio where AAA succeeds
and BBB fails. -/
theorem C5_one_entry_per_ticker_witness :
    ∃ res sf, analysisLoop ["AAA", "BBB"] fetchAAA = Except.ok (res, sf) ∧
      res.length = (["AAA", "BBB"] : List String).length ∧
      List.Forall₂ (rowEntryRel fetchAAA) ["AAA", "BBB"] res :=
  C5_one_entry_per_ticker ["AAA", "BBB"] fetchAAA (by decide)
    (by
      intro t p h
      by_cases ht : t = "AAA"
      · subst ht
        have hv : fetchAAA "AAA" =
            Option.some [("symbol", PyVal.str "AAA"), ("pegRatio", PyVal.num 1.2),
              ("returnOnEquity", PyVal.num 0.2), ("debtToEquity", PyVal.num 50)] := rfl
        rw [hv] at h
        obtain rfl := (Option.some.inj h).symm
        exact ⟨rfl, rfl, rfl⟩
      · have hv : fetchAAA t = Option.none := by simp [fetchAAA, ht]
        rw [hv] at h
        cases h)

/-- C9, counterexample.  The claim says only configuration errors
(missing required columns or credentials) terminate the process.  A sheet
with the required columns whose single data row has a blank ticker makes
`analysis_results` empty, and line 148 raises an uncaught `RuntimeError`
— a fatal error that is not a configuration error. -/
theorem C9_counterexample :
    runAnalysis ["Ticker", "Shares", "Avg_Cost"] ["  "] (fun _ => Option.none) =
      Except.error "RuntimeError: No tickers found to analyze. Check your sheet content." := rfl

/-- C9, amended.  Missing required sheet columns abort the run before any
fetch; in addition a portfolio with no non-blank ticker aborts with the
line-148 `RuntimeError` (and a non-numeric indicator aborts scoring, cf.
the C4 counterexample).  Otherwise — some non-blank ticker, well-typed
payloads — per-ticker fetch failures and generation failures degrade
gracefully: the run produces a report body. -/
theorem C9_fatal_scope (columns rows : List String) (fetchR : String → Option Payload)
    (gen : Except String String)
    (hcols : required_cols.all (fun c => decide (c ∈ columns.map pyStrip)) = true)
    (hsome : ∃ r ∈ rows, pyStrip r ≠ "")
    (hwt : ∀ t p, fetchR t = Option.some p → wellTyped p) :
    (∃ body, runReport columns rows fetchR gen = Except.ok body) ∧
      (∀ rows2 fetchR2 gen2, runReport ["Ticker", "Shares"] rows2 fetchR2 gen2 =
        Except.error "ValueError: Missing columns in sheet: Avg_Cost") := by
  constructor
  · have hmiss : List.filter (fun c => decide (c ∉ List.map pyStrip columns)) required_cols
        = [] := by
      rw [List.filter_eq_nil_iff]
      intro a ha
      have hc := List.all_eq_true.mp hcols a ha
      simpa using hc
    have hchk : checkRequiredCols columns = Except.ok () := by
      show (if List.filter (fun c => decide (c ∉ List.map pyStrip columns)) required_cols = []
          then Except.ok ()
          else Except.error ("ValueError: Missing columns in sheet: " ++ String.intercalate ", "
            (List.filter (fun c => decide (c ∉ List.map pyStrip columns)) required_cols)))
        = Except.ok ()
      rw [if_pos hmiss]
    obtain ⟨res, sf, hloop, hrel⟩ := analysisLoop_ok rows fetchR hwt
    have hres : res ≠ [] := by
      rcases hsome with ⟨r, hr, hnb⟩
      have hmem : r ∈ rows.filter (fun x => !(pyStrip x == "")) :=
        List.mem_filter.mpr ⟨hr, by simpa using hnb⟩
      intro hnil
      rw [hnil] at hrel
      have hlen := hrel.length_eq
      simp only [List.length_nil] at hlen
      rw [List.length_eq_zero] at hlen
      rw [hlen] at hmem
      cases hmem
    refine ⟨aiSummary sf rows.length res gen, ?_⟩
    simp [runReport, runAnalysis, hchk, hloop, hres, bind, Except.bind]
  · intro rows2 fetchR2 gen2
    rfl

/-- Witness for C9 at a concrete run: one valid ticker whose fetch fails
and a failing generation service still yield a report. -/
theorem C9_fatal_scope_witness :
    (∃ body, runReport ["Ticker", "Shares", "Avg_Cost"] ["AAA"] (fun _ => Option.none)
        (Except.error "boom") = Except.ok body) ∧
      (∀ rows2 fetchR2 gen2, runReport ["Ticker", "Shares"] rows2 fetchR2 gen2 =
        Except.error "ValueError: Missing columns in sheet: Avg_Cost") :=
  C9_fatal_scope ["Ticker", "Shares", "Avg_Cost"] ["AAA"] (fun _ => Option.none)
    (Except.error "boom") (by decide) ⟨"AAA", by decide, by decide⟩
    (fun t p h => by cases h)

/-! ## Rate-limit backoff -/

/-- A rate-limit backoff event found in the exception branch is either
the one recorded at this attempt — with delay `15 * (attempt + 1)` — or
comes from the continuation of the loop. -/
lemma rl_mem_exnStep (mR : Nat) (msg : String) (attempt : Nat)
    (next : List Event × Option Payload) (i : Nat) (d : Nat)
    (h : Event.rateLimitSleep i d ∈ (exnStep mR msg attempt next).1) :
    (i = attempt ∧ d = 15 * (attempt + 1)) ∨ Event.rateLimitSleep i d ∈ next.1 := by
  unfold exnStep at h
  split at h
  · rcases List.mem_cons.mp h with h1 | h2
    · left
      injection h1 with hi hd
      exact ⟨hi, hd⟩
    · right
      exact h2
  · split at h
    · rcases List.mem_cons.mp h with h1 | h2
      · simp at h1
      · right
        exact h2
    · simp at h

/-- Every rate-limit backoff event the loop ever records at attempt `i`
sleeps exactly `15 * (i + 1)` units. -/
lemma rl_delay_of_mem (pc : Nat → PacingResult) (up : Nat → UpstreamResult) (mR : Nat) :
    ∀ (fuel attempt i : Nat) (d : Nat),
      Event.rateLimitSleep i d ∈ (fetchGo pc up mR attempt fuel).1 → d = 15 * (i + 1) := by
  intro fuel
  induction fuel with
  | zero =>
    intro attempt i d h
    simp [fetchGo] at h
  | succ f ih =>
    intro attempt i d h
    cases hpc : pc attempt with
    | nameError msg =>
      simp only [fetchGo, hpc] at h
      rcases rl_mem_exnStep mR msg attempt _ i d h with ⟨hi, hd⟩ | hnext
      · rw [hi]
        exact hd
      · exact ih (attempt + 1) i d hnext
    | draw t =>
      cases hup : up attempt with
      | info p =>
        simp only [fetchGo, hpc, hup] at h
        split at h
        · split at h
          · simp only [List.mem_cons] at h
            rcases h with h1 | h1 | h1 | h1
            · simp at h1
            · simp at h1
            · simp at h1
            · exact ih (attempt + 1) i d h1
          · simp at h
        · simp at h
      | raises msg =>
        simp only [fetchGo, hpc, hup] at h
        simp only [List.mem_cons] at h
        rcases h with h1 | h1 | h1
        · simp at h1
        · simp at h1
        · rcases rl_mem_exnStep mR msg attempt _ i d h1 with ⟨hi, hd⟩ | hnext
          · rw [hi]
            exact hd
          · exact ih (attempt + 1) i d hnext

/-- C6.  The backoff before retrying after a rate-limited (429) failure
is the fixed base 15 multiplied by the 1-based attempt number — hence
strictly increasing in the attempt number — and an upstream that rate
limits all three attempts produces exactly the backoff sleeps
15, 30, 45 (t, 2t, 3t for t = 15) and a failed fetch. -/
theorem C6_rate_limit_backoff_linear :
    (∀ (pc : Nat → PacingResult) (up : Nat → UpstreamResult) (mR fuel attempt i d : Nat),
        Event.rateLimitSleep i d ∈ (fetchGo pc up mR attempt fuel).1 →
          d = 15 * (i + 1)) ∧
      (fetch_stock_paced pace5 all429).1.filterMap backoffOf = [15, 30, 45] ∧
      (fetch_stock_paced pace5 all429).2 = Option.none := by
  refine ⟨?_, by decide, rfl⟩
  intro pc up mR fuel attempt i d
  exact rl_delay_of_mem pc up mR fuel attempt i d

/-- Witness for C6: the backoff event of the first rate-limited attempt
in the all-429 run sleeps 15 = 15 * 1 units. -/
theorem C6_rate_limit_backoff_linear_witness : (15 : Nat) = 15 * (0 + 1) :=
  C6_rate_limit_backoff_linear.1 pace5 all429 3 3 0 0 15 (by decide)

/-! ## Telegram ceiling -/

/-- C8.  For every report body and every run, the message sent on the
Telegram channel has at most 4000 code points; either no truncation was
needed and the message is the assembled one, or the assembled message
exceeded 4000 and the sent message is its first 3800 code points with the
truncation marker appended — in particular it then ends with the
marker. -/
theorem C8_telegram_length_ceiling (ai : String) (sf plen : Nat) :
    pyLen (telegramMessage ai sf plen) ≤ 4000 ∧
      ((pyLen (preMessage ai sf plen) ≤ 4000 ∧
          telegramMessage ai sf plen = preMessage ai sf plen) ∨
        (4000 < pyLen (preMessage ai sf plen) ∧
          telegramMessage ai sf plen
            = pyTake (preMessage ai sf plen) 3800 ++ truncationMarker ∧
          truncationMarker.data <:+ (telegramMessage ai sf plen).data)) := by
  by_cases h : 4000 < pyLen (preMessage ai sf plen)
  · have hmsg : telegramMessage ai sf plen
        = pyTake (preMessage ai sf plen) 3800 ++ truncationMarker := by
      show (if 4000 < pyLen (preMessage ai sf plen)
          then pyTake (preMessage ai sf plen) 3800 ++ truncationMarker
          else preMessage ai sf plen)
        = pyTake (preMessage ai sf plen) 3800 ++ truncationMarker
      rw [if_pos h]
    constructor
    · rw [hmsg]
      show ((pyTake (preMessage ai sf plen) 3800 ++ truncationMarker).data).length ≤ 4000
      rw [strAppend_data, List.length_append]
      have h1 : (pyTake (preMessage ai sf plen) 3800).data.length ≤ 3800 := by
        show ((preMessage ai sf plen).data.take 3800).length ≤ 3800
        rw [List.length_take]
        exact Nat.min_le_left _ _
      have h2 : truncationMarker.data.length = 29 := by decide
      omega
    · right
      refine ⟨h, hmsg, ?_⟩
      rw [hmsg, strAppend_data]
      exact List.suffix_append _ _
  · have hmsg : telegramMessage ai sf plen = preMessage ai sf plen := by
      show (if 4000 < pyLen (preMessage ai sf plen)
          then pyTake (preMessage ai sf plen) 3800 ++ truncationMarker
          else preMessage ai sf plen)
        = preMessage ai sf plen
      rw [if_neg h]
    refine ⟨?_, Or.inl ⟨Nat.le_of_not_lt h, hmsg⟩⟩
    rw [hmsg]
    exact Nat.le_of_not_lt h

/-! ## The 800-point body excerpt -/

/-- C10, amended.  The Telegram message depends on the report body only
through its first 800 code points — content beyond position 800 is never
delivered — and, whenever the assembled message fits the 4000 ceiling,
the message ends with exactly those first 800 code points followed by the
literal `"..."`.  (When the assembled message exceeds the ceiling, the
3800-point cut may remove part or all of the body excerpt — see the
counterexample.) -/
theorem C10_body_capped_at_800 (body other : String) (sf plen : Nat)
    (h8 : pyTake body 800 = pyTake other 800)
    (hfit : pyLen (preMessage body sf plen) ≤ 4000) :
    telegramMessage body sf plen = telegramMessage other sf plen ∧
      (pyTake body 800 ++ "...").data <:+ (telegramMessage body sf plen).data := by
  have hpre : preMessage body sf plen = preMessage other sf plen := by
    unfold preMessage
    rw [h8]
  constructor
  · unfold telegramMessage
    rw [hpre]
  · have hmsg : telegramMessage body sf plen = preMessage body sf plen := by
      show (if 4000 < pyLen (preMessage body sf plen)
          then pyTake (preMessage body sf plen) 3800 ++ truncationMarker
          else preMessage body sf plen)
        = preMessage body sf plen
      rw [if_neg (Nat.not_lt.mpr hfit)]
    rw [hmsg]
    have hdata : (preMessage body sf plen).data
        = (("<b>Daily Stock Report</b>\n\n").data ++ (summaryLine sf plen).data
            ++ ("\n\n").data)
          ++ ((pyTake body 800).data ++ ("...").data) := by
      simp [preMessage, strAppend_data, List.append_assoc]
    rw [hdata, strAppend_data]
    exact ⟨_, rfl⟩

set_option maxRecDepth 40000 in
/-- Witness for C10: two 900- and 801-point bodies agreeing on their
first 800 points produce the same fitting message, which ends with the
excerpt plus `"..."`. -/
theorem C10_body_capped_at_800_witness :
    telegramMessage (String.mk (List.replicate 900 'a')) 1 1
        = telegramMessage (String.mk (List.replicate 801 'a')) 1 1 ∧
      (pyTake (String.mk (List.replicate 900 'a')) 800 ++ "...").data <:+
        (telegramMessage (String.mk (List.replicate 900 'a')) 1 1).data :=
  C10_body_capped_at_800 (String.mk (List.replicate 900 'a'))
    (String.mk (List.replicate 801 'a')) 1 1 (by decide) (by decide)

/-! ## Decimal rendering facts

The C10 counterexample needs the length and the character set of
`Nat.repr` on a large number, proved symbolically (the number has
thousands of digits, so evaluating it inside the kernel is not an
option). -/

/-- With enough fuel, `Nat.toDigitsCore` renders `log n + 1` digits on
top of the accumulator. -/
lemma toDigitsCore_length_eq :
    ∀ (f n : Nat) (l : List Char), 0 < n → n < 10 ^ f →
      (Nat.toDigitsCore 10 f n l).length = Nat.log 10 n + 1 + l.length := by
  intro f
  induction f with
  | zero =>
    intro n l hn hlt
    simp at hlt
    omega
  | succ f ih =>
    intro n l hn hlt
    simp only [Nat.toDigitsCore]
    by_cases hdiv : n / 10 = 0
    · have hn10 : n < 10 := by
        by_contra hge
        have hq : 1 ≤ n / 10 := (Nat.le_div_iff_mul_le (by norm_num)).mpr (by omega)
        omega
      simp [hdiv, Nat.log_of_lt hn10]
      omega
    · have h1 : 0 < n / 10 := Nat.pos_of_ne_zero hdiv
      have h10n : 10 ≤ n := by
        by_contra hlt10
        exact hdiv (Nat.div_eq_of_lt (Nat.lt_of_not_le hlt10))
      have h2 : n / 10 < 10 ^ f := by
        rw [Nat.div_lt_iff_lt_mul (by norm_num)]
        calc n < 10 ^ (f + 1) := hlt
          _ = 10 ^ f * 10 := by ring
      simp only [hdiv, if_false]
      rw [ih (n / 10) (Nat.digitChar (n % 10) :: l) h1 h2]
      have hlog : Nat.log 10 (n / 10) = Nat.log 10 n - 1 := Nat.log_div_base 10 n
      have hpos : 0 < Nat.log 10 n := Nat.log_pos (by norm_num) h10n
      simp only [List.length_cons]
      omega

/-- The decimal rendering of a positive number has `log n + 1` digits. -/
lemma repr_data_length (n : Nat) (h : 0 < n) :
    (Nat.repr n).data.length = Nat.log 10 n + 1 := by
  cases n with
  | zero => omega
  | succ m =>
    show (Nat.toDigitsCore 10 (m + 2) (m + 1) []).length = _
    rw [toDigitsCore_length_eq (m + 2) (m + 1) [] (Nat.succ_pos m) ?_]
    · simp
    · calc m + 1 < 10 ^ (m + 1) := Nat.lt_pow_self (by norm_num) (m + 1)
        _ ≤ 10 ^ (m + 2) := Nat.pow_le_pow_right (by norm_num) (by omega)

/-- No decimal digit character is the letter Z. -/
lemma digitChar_ne_Z (m : Nat) : Nat.digitChar m ≠ 'Z' := by
  by_cases h0 : m = 0
  · subst h0; decide
  by_cases h1 : m = 1
  · subst h1; decide
  by_cases h2 : m = 2
  · subst h2; decide
  by_cases h3 : m = 3
  · subst h3; decide
  by_cases h4 : m = 4
  · subst h4; decide
  by_cases h5 : m = 5
  · subst h5; decide
  by_cases h6 : m = 6
  · subst h6; decide
  by_cases h7 : m = 7
  · subst h7; decide
  by_cases h8 : m = 8
  · subst h8; decide
  by_cases h9 : m = 9
  · subst h9; decide
  by_cases ha : m = 0xa
  · subst ha; decide
  by_cases hb : m = 0xb
  · subst hb; decide
  by_cases hc : m = 0xc
  · subst hc; decide
  by_cases hd : m = 0xd
  · subst hd; decide
  by_cases he : m = 0xe
  · subst he; decide
  by_cases hf : m = 0xf
  · subst hf; decide
  intro h
  unfold Nat.digitChar at h
  rw [if_neg h0, if_neg h1, if_neg h2, if_neg h3, if_neg h4, if_neg h5, if_neg h6,
    if_neg h7, if_neg h8, if_neg h9, if_neg ha, if_neg hb, if_neg hc, if_neg hd,
    if_neg he, if_neg hf] at h
  exact absurd h (by decide)

/-- Every character `toDigitsCore` emits is a digit character (or comes
from the accumulator). -/
lemma mem_toDigitsCore_digitChar :
    ∀ (f n : Nat) (l : List Char) (c : Char),
      c ∈ Nat.toDigitsCore 10 f n l → c ∈ l ∨ ∃ m, c = Nat.digitChar m := by
  intro f
  induction f with
  | zero =>
    intro n l c h
    exact Or.inl h
  | succ f ih =>
    intro n l c h
    simp only [Nat.toDigitsCore] at h
    by_cases hdiv : n / 10 = 0
    · simp only [hdiv, if_true] at h
      rcases List.mem_cons.mp h with h1 | h1
      · exact Or.inr ⟨n % 10, h1⟩
      · exact Or.inl h1
    · simp only [hdiv, if_false] at h
      rcases ih (n / 10) (Nat.digitChar (n % 10) :: l) c h with h1 | h1
      · rcases List.mem_cons.mp h1 with h2 | h2
        · exact Or.inr ⟨n % 10, h2⟩
        · exact Or.inl h2
      · exact Or.inr h1

/-- The letter Z never occurs in a decimal rendering. -/
lemma z_not_mem_repr (n : Nat) : ('Z' : Char) ∉ (Nat.repr n).data := by
  intro h
  have h2 : ('Z' : Char) ∈ Nat.toDigitsCore 10 (n + 1) n [] := h
  rcases mem_toDigitsCore_digitChar (n + 1) n [] 'Z' h2 with h3 | ⟨m, hm⟩
  · cases h3
  · exact digitChar_ne_Z m hm.symm

/-- The C10 counterexample run: a portfolio so large that its count
renders with 3761 digits (the code places the summary line before the
body excerpt, so a long summary pushes the excerpt past the 3800-point
cut). -/
def c10sf : Nat := 10 ^ 3760

/-- The C10 counterexample report body: 900 copies of Z, a character
that occurs nowhere else in the message. -/
def c10body : String := String.mk (List.replicate 900 'Z')

lemma c10sf_pos : 0 < c10sf := pow_pos (by norm_num) 3760

lemma c10sf_log : Nat.log 10 c10sf = 3760 := Nat.log_pow (by norm_num) 3760

lemma c10_repr_len : (Nat.repr c10sf).data.length = 3761 := by
  rw [repr_data_length c10sf c10sf_pos, c10sf_log]

lemma c10_summary_eq :
    summaryLine c10sf 1
      = "Analyzed " ++ toString c10sf ++ "/" ++ toString 1 ++ " stocks ✅" ++ "" := by
  unfold summaryLine
  rw [if_neg (Nat.not_lt.mpr c10sf_pos)]

lemma c10_summary_data :
    (summaryLine c10sf 1).data
      = ("Analyzed ").data ++ (Nat.repr c10sf).data ++ ("/").data ++ ("1").data
        ++ (" stocks ✅").data := by
  rw [c10_summary_eq]
  rw [show toString c10sf = Nat.repr c10sf from rfl]
  rw [show toString (1 : Nat) = "1" from rfl]
  rw [strAppend_data, strAppend_data, strAppend_data, strAppend_data, strAppend_data]
  rw [show ("" : String).data = [] from rfl]
  rw [List.append_nil]

lemma c10_summary_len : (summaryLine c10sf 1).data.length = 3781 := by
  rw [c10_summary_data]
  rw [List.length_append, List.length_append, List.length_append, List.length_append]
  rw [c10_repr_len]
  rw [show ("Analyzed ").data.length = 9 from rfl]
  rw [show ("/").data.length = 1 from rfl]
  rw [show ("1").data.length = 1 from rfl]
  rw [show (" stocks ✅").data.length = 9 from rfl]

/-- The assembled message splits into the part before the body excerpt
and the excerpt itself (with its trailing dots). -/
lemma pre_data_decomp (body : String) (sf plen : Nat) :
    (preMessage body sf plen).data
      = (("<b>Daily Stock Report</b>\n\n").data ++ (summaryLine sf plen).data
          ++ ("\n\n").data)
        ++ ((pyTake body 800).data ++ ("...").data) := by
  simp [preMessage, strAppend_data, List.append_assoc]

lemma c10_A_len :
    (("<b>Daily Stock Report</b>\n\n").data ++ (summaryLine c10sf 1).data
        ++ ("\n\n").data).length = 3810 := by
  rw [List.length_append, List.length_append, c10_summary_len]
  rw [show ("<b>Daily Stock Report</b>\n\n").data.length = 27 from rfl]
  rw [show ("\n\n").data.length = 2 from rfl]

lemma c10_take_body : (pyTake c10body 800).data = List.replicate 800 'Z' := by
  show (List.replicate 900 'Z').take 800 = _
  rw [List.take_replicate]
  rw [min_eq_left (by norm_num)]

lemma c10_pre_len : pyLen (preMessage c10body c10sf 1) = 4613 := by
  show (preMessage c10body c10sf 1).data.length = 4613
  rw [pre_data_decomp, List.length_append, c10_A_len, List.length_append, c10_take_body]
  rw [List.length_replicate]
  rw [show ("...").data.length = 3 from rfl]

lemma c10_message_eq :
    telegramMessage c10body c10sf 1
      = pyTake (preMessage c10body c10sf 1) 3800 ++ truncationMarker := by
  show (if 4000 < pyLen (preMessage c10body c10sf 1)
      then pyTake (preMessage c10body c10sf 1) 3800 ++ truncationMarker
      else preMessage c10body c10sf 1)
    = pyTake (preMessage c10body c10sf 1) 3800 ++ truncationMarker
  rw [if_pos (by rw [c10_pre_len]; norm_num)]

lemma c10_Z_not_in_A :
    ('Z' : Char) ∉ (("<b>Daily Stock Report</b>\n\n").data ++ (summaryLine c10sf 1).data
      ++ ("\n\n").data) := by
  have hA : ('Z' : Char) ∉ ("<b>Daily Stock Report</b>\n\n").data := by decide
  have h1 : ('Z' : Char) ∉ ("Analyzed ").data := by decide
  have h2 : ('Z' : Char) ∉ ("/").data := by decide
  have h3 : ('Z' : Char) ∉ ("1").data := by decide
  have h4 : ('Z' : Char) ∉ (" stocks ✅").data := by decide
  have h5 : ('Z' : Char) ∉ ("\n\n").data := by decide
  have hr := z_not_mem_repr c10sf
  intro h
  rw [c10_summary_data] at h
  rcases List.mem_append.mp h with h | h
  · rcases List.mem_append.mp h with h | h
    · exact hA h
    · rcases List.mem_append.mp h with h | h
      · rcases List.mem_append.mp h with h | h
        · rcases List.mem_append.mp h with h | h
          · rcases List.mem_append.mp h with h | h
            · exact h1 h
            · exact hr h
          · exact h2 h
        · exact h3 h
      · exact h4 h
  · exact h5 h

/-- No character of the body survives into the truncated message. -/
lemma c10_Z_not_in_message : ('Z' : Char) ∉ (telegramMessage c10body c10sf 1).data := by
  intro h
  rw [c10_message_eq, strAppend_data] at h
  rcases List.mem_append.mp h with h1 | h1
  · have hsplit : (preMessage c10body c10sf 1).data.take 3800
        = (("<b>Daily Stock Report</b>\n\n").data ++ (summaryLine c10sf 1).data
            ++ ("\n\n").data).take 3800 := by
      rw [pre_data_decomp, List.take_append_eq_append_take, c10_A_len]
      rw [show (3800 : Nat) - 3810 = 0 from Nat.sub_eq_zero_of_le (by norm_num)]
      rw [List.take_zero, List.append_nil]
    rw [pyTake_data, hsplit] at h1
    exact c10_Z_not_in_A (List.take_subset 3800 _ h1)
  · exact (by decide : ('Z' : Char) ∉ truncationMarker.data) h1

/-- C10, counterexample.  The claim says the Telegram message includes
the first 800 characters of the body followed by `"..."` regardless of
whether the 4000 ceiling is reached.  Formalizing inclusion as the
excerpt being a contiguous substring of the sent message: on the run with
report body `c10body` (900 points, all Z) and `10 ^ 3760` portfolio rows,
the summary line alone pushes the body excerpt past the 3800-point cut,
and the sent message contains no character of the body at all. -/
theorem C10_counterexample :
    ¬ ((pyTake c10body 800 ++ "...").data <:+: (telegramMessage c10body c10sf 1).data) := by
  intro h
  have hz : ('Z' : Char) ∈ (pyTake c10body 800 ++ "...").data := by
    rw [strAppend_data, c10_take_body]
    exact List.mem_append.mpr (Or.inl (List.mem_replicate.mpr ⟨by norm_num, rfl⟩))
  exact c10_Z_not_in_message (h.subset hz)

end PortfolioRobot
